import Mathlib

/-!
Shallow embedding of the model-analysis repository fragment consisting of
`tensorflow_model_analysis/notebook/colab/renderer.py` (the notebook
renderer) and `tensorflow_model_analysis/types.py` (the data-model
declarations), together with theorems settling the specification claims.

Python values are modelled explicitly: optional/None-able slots are
`Option` types, Python floats are rationals (no arithmetic is performed on
them anywhere in this fragment, so storage round-trips are exact), byte
strings are lists of naturals, and the external display sink is observed
through the list of invocation events a renderer call produces.
-/

namespace ModelAnalysis

/-- Python-style payload values passed as `data` and `config` arguments to
the renderer functions: integers, strings, lists and string-keyed dicts. -/
inductive PyData where
  | int : Int → PyData
  | str : String → PyData
  | list : List PyData → PyData
  | dict : List (String × PyData) → PyData

/-- A single invocation of the external display sink, recording the
component identifier and the two payload arguments exactly as received. -/
structure SinkCall where
  component : String
  data : PyData
  config : PyData

/-- Modelled from the spec: `util.render_component` (module
`tensorflow_model_analysis/notebook/colab/util`, not present under the
source excerpt) is the external display sink, "a function accepting
(component-identifier: string, data: sequence-or-mapping, config: mapping)
and producing a rendered visual in the host notebook; no return value is
consumed by the renderer". It is modelled as emitting exactly the one
sink-invocation event that records its three arguments. -/
def render_component (component : String) (data config : PyData) :
    Unit × List SinkCall :=
  ((), [⟨component, data, config⟩])

/-- Embedding of `render_slicing_metrics` from `renderer.py`: forwards to
`util.render_component` with identifier `tfma-nb-slicing-metrics`. -/
def render_slicing_metrics (data config : PyData) : Unit × List SinkCall :=
  render_component "tfma-nb-slicing-metrics" data config

/-- Embedding of `render_time_series` from `renderer.py`: forwards to
`util.render_component` with identifier `tfma-nb-time-series`. -/
def render_time_series (data config : PyData) : Unit × List SinkCall :=
  render_component "tfma-nb-time-series" data config

/-- Embedding of `render_plot` from `renderer.py`: forwards to
`util.render_component` with identifier `tfma-nb-plot`. -/
def render_plot (data config : PyData) : Unit × List SinkCall :=
  render_component "tfma-nb-plot" data config

/-- The concrete `data` argument of the worked example in the spec:
the Python dict `{"series": [1, 2, 3]}`. -/
def plotExampleData : PyData :=
  .dict [("series", .list [.int 1, .int 2, .int 3])]

/-- The concrete `config` argument of the worked example in the spec:
the Python dict `{"title": "x"}`. -/
def plotExampleConfig : PyData :=
  .dict [("title", .str "x")]

/-- Embedding of `ValueWithConfidenceInterval` from `types.py`: a named
tuple of a required `value` and three optional bounds (Python floats are
modelled as rationals, `None` as `Option.none`). -/
structure ValueWithConfidenceInterval where
  value : ℚ
  lower_bound : Option ℚ
  upper_bound : Option ℚ
  unsampled_value : Option ℚ

/-- Embedding of `ValueWithConfidenceInterval.__new__`: stores the four
arguments as given, with no bounds checking (the source even carries the
comment "Add bounds checking?" without doing it). -/
def ValueWithConfidenceInterval.new (value : ℚ)
    (lower_bound upper_bound unsampled_value : Option ℚ) :
    ValueWithConfidenceInterval :=
  ⟨value, lower_bound, upper_bound, unsampled_value⟩

/-- A call of `ValueWithConfidenceInterval` supplying only `value`: the
Python defaults put `None` into the three optional slots. -/
def ValueWithConfidenceInterval.newValueOnly (value : ℚ) :
    ValueWithConfidenceInterval :=
  ValueWithConfidenceInterval.new value none none none

/-- Raw Python byte strings (features may hold arbitrary bytes values). -/
def Bytes := List Nat

/-- Embedding of `KeyType` from `types.py`: a text key or a tuple of
text keys. -/
inductive KeyType where
  | text : String → KeyType
  | tuple : List String → KeyType

/-- An opaque fetched tensor value (`np.ndarray` or `tf.SparseTensorValue`
in the source); only its identity matters to this fragment. -/
structure TensorValue where
  id : Nat

/-- Embedding of `DictOfFetchedTensorValues`: original key, then node name,
then fetched value. -/
def DictOfFetchedTensorValues := List (KeyType × List (String × TensorValue))

/-- Embedding of the `FeaturesPredictionsLabels` named tuple from
`types.py`: plain field storage, no constructor logic. -/
structure FeaturesPredictionsLabels where
  input_ref : Int
  features : DictOfFetchedTensorValues
  predictions : DictOfFetchedTensorValues
  labels : DictOfFetchedTensorValues

/-- The union type of the `value` field of `MaterializedColumn`:
`Union[List[bytes], List[int], List[float], bytes, int, float]`. -/
inductive MaterializedValue where
  | bytesList : List Bytes → MaterializedValue
  | intList : List Int → MaterializedValue
  | floatList : List ℚ → MaterializedValue
  | bytes : Bytes → MaterializedValue
  | int : Int → MaterializedValue
  | float : ℚ → MaterializedValue

/-- Embedding of the `MaterializedColumn` named tuple from `types.py`:
plain field storage of a name and a value, no constructor logic. -/
structure MaterializedColumn where
  name : String
  value : MaterializedValue

/-- An opaque Python callable (metrics callback or construct function);
only its identity matters to this fragment. -/
structure Callback where
  id : Nat
deriving DecidableEq

/-- An opaque `shared.Shared` handle; distinct constructions yield objects
with distinct identities, modelled by a natural-number id drawn from an
allocation counter. -/
structure SharedHandle where
  id : Nat
deriving DecidableEq

/-- Embedding of the `EvalSharedModel` named tuple from `types.py`. The
tuple slots themselves place no non-None constraint on any field, so every
slot is an `Option`; it is `EvalSharedModel.__new__` that normalizes
`add_metrics_callbacks` and `shared_handle` to non-None values. -/
structure EvalSharedModel where
  model_path : Option String
  add_metrics_callbacks : Option (List Callback)
  include_default_metrics : Option Bool
  example_weight_key : Option String
  shared_handle : Option SharedHandle
  construct_fn : Option Callback

/-- Python truth test `not add_metrics_callbacks` on an argument typed
`Optional[List[Callable]]`: true exactly on `None` and on the empty list. -/
def pyFalsyCallbackList : Option (List Callback) → Bool
  | none => true
  | some l => l.isEmpty

/-- Python truth test `not shared_handle` on an argument typed
`Optional[shared.Shared]`: a `shared.Shared` instance is always truthy, so
only `None` is falsy. -/
def pyFalsySharedHandle : Option SharedHandle → Bool
  | none => true
  | some _ => false

/-- Embedding of `EvalSharedModel.__new__`: a falsy
`add_metrics_callbacks` is replaced by a fresh empty list and a falsy
`shared_handle` by a freshly constructed `shared.Shared()`; fresh handle
construction is modelled by consuming the allocation counter `alloc`,
returned incremented alongside the instance. All other arguments are
stored as given. -/
def EvalSharedModel.new (alloc : Nat) (model_path : Option String)
    (add_metrics_callbacks : Option (List Callback))
    (include_default_metrics : Option Bool)
    (example_weight_key : Option String)
    (shared_handle : Option SharedHandle)
    (construct_fn : Option Callback) : EvalSharedModel × Nat :=
  let amc : Option (List Callback) :=
    if pyFalsyCallbackList add_metrics_callbacks then some []
    else add_metrics_callbacks
  let shAndAlloc : Option SharedHandle × Nat :=
    if pyFalsySharedHandle shared_handle then (some (SharedHandle.mk alloc), alloc + 1)
    else (shared_handle, alloc)
  (⟨model_path, amc, include_default_metrics, example_weight_key,
    shAndAlloc.1, construct_fn⟩, shAndAlloc.2)

/-- The call `EvalSharedModel()` with every argument omitted: Python fills
in the declared defaults, which are `None` for every parameter except
`include_default_metrics = True`. -/
def EvalSharedModel.defaultNew (alloc : Nat) : EvalSharedModel × Nat :=
  EvalSharedModel.new alloc none none (some true) none none none

/-- The universe of Python runtime objects an `is_tensor` caller may pass:
`tf.Tensor` instances, `tf.SparseTensor` instances, and everything else. -/
inductive PyObj where
  | tensor : Nat → PyObj
  | sparseTensor : Nat → PyObj
  | other : Nat → PyObj

/-- The Python check `isinstance(obj, tf.Tensor)`. -/
def isinstanceTensor : PyObj → Bool
  | .tensor _ => true
  | _ => false

/-- The Python check `isinstance(obj, tf.SparseTensor)`. -/
def isinstanceSparseTensor : PyObj → Bool
  | .sparseTensor _ => true
  | _ => false

/-- Embedding of `is_tensor` from `types.py`: the disjunction of the two
isinstance checks; a total function, so it never raises. -/
def is_tensor (obj : PyObj) : Bool :=
  isinstanceTensor obj || isinstanceSparseTensor obj

end ModelAnalysis

namespace ModelAnalysis

/-- C1: for every (data, config) pair, each of `render_slicing_metrics`,
`render_time_series` and `render_plot` produces exactly one sink
invocation, carrying the fixed component identifier of that function and
the data and config values unchanged, and returns no value (unit). -/
theorem renderer_pure_forwarding (data config : PyData) :
    render_slicing_metrics data config
      = ((), [⟨"tfma-nb-slicing-metrics", data, config⟩]) ∧
    render_time_series data config
      = ((), [⟨"tfma-nb-time-series", data, config⟩]) ∧
    render_plot data config
      = ((), [⟨"tfma-nb-plot", data, config⟩]) :=
  ⟨rfl, rfl, rfl⟩

/-- C2 counterexample: calling `render_plot` on the spec's worked example
inputs produces exactly one sink invocation, but its component identifier
is the string `tfma-nb-plot`, not `plot` as the claim states. -/
theorem render_plot_identifier_not_plot :
    (render_plot plotExampleData plotExampleConfig).2.map SinkCall.component
      = ["tfma-nb-plot"] ∧
    "tfma-nb-plot" ≠ "plot" :=
  ⟨rfl, by decide⟩

/-- C2 (amended): the component identifier passed to the display sink is
`tfma-nb-slicing-metrics` for `render_slicing_metrics`,
`tfma-nb-time-series` for `render_time_series`, and `tfma-nb-plot` for
`render_plot`; in particular, calling `render_plot` on the dicts
`\x7b"series": [1,2,3]\x7d` and `\x7b"title": "x"\x7d` causes exactly one
sink invocation whose identifier is `tfma-nb-plot`, with both arguments
passed unchanged. -/
theorem renderer_component_identifiers :
    (∀ d c : PyData,
      (render_slicing_metrics d c).2.map SinkCall.component
          = ["tfma-nb-slicing-metrics"] ∧
      (render_time_series d c).2.map SinkCall.component
          = ["tfma-nb-time-series"] ∧
      (render_plot d c).2.map SinkCall.component = ["tfma-nb-plot"]) ∧
    (render_plot plotExampleData plotExampleConfig).2
      = [⟨"tfma-nb-plot", plotExampleData, plotExampleConfig⟩] :=
  ⟨fun _ _ => ⟨rfl, rfl, rfl⟩, rfl⟩

/-- C3: `EvalSharedModel()` with all defaults yields an instance whose
`add_metrics_callbacks` is the empty list and whose `shared_handle` is the
freshly constructed, non-null handle drawn from the allocation counter;
a second default construction yields a distinct handle. -/
theorem evalSharedModel_default_fresh_handle (alloc : Nat) :
    (EvalSharedModel.defaultNew alloc).1.add_metrics_callbacks = some [] ∧
    (EvalSharedModel.defaultNew alloc).1.shared_handle
      = some (SharedHandle.mk alloc) ∧
    (EvalSharedModel.defaultNew alloc).1.shared_handle ≠ none ∧
    (EvalSharedModel.defaultNew (EvalSharedModel.defaultNew alloc).2).1.shared_handle
      ≠ (EvalSharedModel.defaultNew alloc).1.shared_handle := by
  refine ⟨rfl, rfl, by simp [EvalSharedModel.defaultNew, EvalSharedModel.new,
    pyFalsySharedHandle], ?_⟩
  simp only [EvalSharedModel.defaultNew, EvalSharedModel.new,
    pyFalsyCallbackList, pyFalsySharedHandle, if_true]
  intro h
  simp only [Option.some.injEq, SharedHandle.mk.injEq] at h
  omega

/-- C4: for every handle H and every combination of the other arguments,
constructing `EvalSharedModel` with `shared_handle = H` yields an instance
whose `shared_handle` is exactly H, and the allocation counter is
untouched: no fresh handle is constructed and none replaces H. -/
theorem evalSharedModel_handle_passthrough (alloc : Nat) (H : SharedHandle)
    (mp : Option String) (amc : Option (List Callback)) (idm : Option Bool)
    (ewk : Option String) (cf : Option Callback) :
    (EvalSharedModel.new alloc mp amc idm ewk (some H) cf).1.shared_handle
      = some H ∧
    (EvalSharedModel.new alloc mp amc idm ewk (some H) cf).2 = alloc :=
  ⟨rfl, rfl⟩

/-- C5 counterexample: in the all-defaults construction the
`include_default_metrics` field is `True`, not the None marker that the
claim asserts for every field other than `add_metrics_callbacks` and
`shared_handle`. -/
theorem evalSharedModel_include_default_metrics_true :
    (EvalSharedModel.defaultNew 0).1.include_default_metrics = some true ∧
    (EvalSharedModel.defaultNew 0).1.include_default_metrics ≠ none :=
  ⟨rfl, by simp [EvalSharedModel.defaultNew, EvalSharedModel.new]⟩

/-- C5 (amended): in the all-defaults construction, `model_path`,
`example_weight_key` and `construct_fn` default to the None marker, while
`include_default_metrics` defaults to `True`; the normalization is a
one-shot computation performed by the construction function itself. -/
theorem evalSharedModel_other_field_defaults (alloc : Nat) :
    (EvalSharedModel.defaultNew alloc).1.model_path = none ∧
    (EvalSharedModel.defaultNew alloc).1.include_default_metrics = some true ∧
    (EvalSharedModel.defaultNew alloc).1.example_weight_key = none ∧
    (EvalSharedModel.defaultNew alloc).1.construct_fn = none :=
  ⟨rfl, rfl, rfl, rfl⟩

/-- C6: constructing `ValueWithConfidenceInterval` with only
`value = 5.0` yields an instance whose `lower_bound`, `upper_bound` and
`unsampled_value` are all the None marker and whose `value` equals 5. -/
theorem valueWithConfidenceInterval_value_only :
    (ValueWithConfidenceInterval.newValueOnly 5).value = 5 ∧
    (ValueWithConfidenceInterval.newValueOnly 5).lower_bound = none ∧
    (ValueWithConfidenceInterval.newValueOnly 5).upper_bound = none ∧
    (ValueWithConfidenceInterval.newValueOnly 5).unsampled_value = none :=
  ⟨rfl, rfl, rfl, rfl⟩

/-- C7: the data-model constructors perform no validation: even when the
supplied bounds are not in ascending order around the value,
`ValueWithConfidenceInterval` construction succeeds and stores every field
as given; likewise `MaterializedColumn` and `FeaturesPredictionsLabels`
store their fields as given for arbitrary inputs. -/
theorem constructors_no_validation (v lb ub uv : ℚ) (n : String)
    (mv : MaterializedValue) (ir : Int)
    (f p l : DictOfFetchedTensorValues)
    (_h : ¬ (lb ≤ v ∧ v ≤ ub)) :
    ValueWithConfidenceInterval.new v (some lb) (some ub) (some uv)
      = ⟨v, some lb, some ub, some uv⟩ ∧
    (MaterializedColumn.mk n mv).name = n ∧
    (MaterializedColumn.mk n mv).value = mv ∧
    (FeaturesPredictionsLabels.mk ir f p l).input_ref = ir ∧
    (FeaturesPredictionsLabels.mk ir f p l).features = f :=
  ⟨rfl, rfl, rfl, rfl, rfl⟩

/-- Witness for C7 at the concrete out-of-order input
lower = 5, value = 1, upper = 0. -/
theorem constructors_no_validation_witness :
    (¬ ((5 : ℚ) ≤ 1 ∧ (1 : ℚ) ≤ 0)) ∧
    ValueWithConfidenceInterval.new 1 (some 5) (some 0) (some 2)
      = ⟨1, some 5, some 0, some 2⟩ :=
  ⟨by norm_num,
   (constructors_no_validation 1 5 0 2 "c" (.int 3) 7 [] [] []
      (by norm_num)).1⟩

/-- C8: a `MaterializedColumn` constructed from any name and any value of
the union type round-trips both fields unchanged through construction and
field access. -/
theorem materializedColumn_roundtrip (n : String) (v : MaterializedValue) :
    (MaterializedColumn.mk n v).name = n ∧
    (MaterializedColumn.mk n v).value = v :=
  ⟨rfl, rfl⟩

/-- C9: for every combination of constructor arguments, the constructed
`EvalSharedModel` has a non-None `add_metrics_callbacks` list and a
non-None `shared_handle`; a falsy `add_metrics_callbacks` argument (None
or the empty list) is replaced by a fresh empty list and a falsy
`shared_handle` argument by a freshly allocated handle. -/
theorem evalSharedModel_invariants (alloc : Nat) (mp : Option String)
    (amc : Option (List Callback)) (idm : Option Bool)
    (ewk : Option String) (sh : Option SharedHandle)
    (cf : Option Callback) :
    (EvalSharedModel.new alloc mp amc idm ewk sh cf).1.add_metrics_callbacks
      ≠ none ∧
    (EvalSharedModel.new alloc mp amc idm ewk sh cf).1.shared_handle
      ≠ none ∧
    (pyFalsyCallbackList amc = true →
      (EvalSharedModel.new alloc mp amc idm ewk sh cf).1.add_metrics_callbacks
        = some []) ∧
    (pyFalsySharedHandle sh = true →
      (EvalSharedModel.new alloc mp amc idm ewk sh cf).1.shared_handle
        = some (SharedHandle.mk alloc)) := by
  refine ⟨?_, ?_, ?_, ?_⟩
  · cases amc with
    | none => simp [EvalSharedModel.new, pyFalsyCallbackList]
    | some l =>
        cases l with
        | nil => simp [EvalSharedModel.new, pyFalsyCallbackList]
        | cons a t => simp [EvalSharedModel.new, pyFalsyCallbackList]
  · cases sh with
    | none => simp [EvalSharedModel.new, pyFalsySharedHandle]
    | some s => simp [EvalSharedModel.new, pyFalsySharedHandle]
  · intro hf
    simp [EvalSharedModel.new, hf]
  · intro hf
    simp [EvalSharedModel.new, hf]

/-- Witness for C9 at the concrete falsy arguments
add_metrics_callbacks = the empty list and shared_handle = None. -/
theorem evalSharedModel_invariants_witness :
    (EvalSharedModel.new 0 none (some []) (some true) none none
        none).1.add_metrics_callbacks = some [] ∧
    (EvalSharedModel.new 0 none (some []) (some true) none none
        none).1.shared_handle = some (SharedHandle.mk 0) :=
  ⟨(evalSharedModel_invariants 0 none (some []) (some true) none none
      none).2.2.1 rfl,
   (evalSharedModel_invariants 0 none (some []) (some true) none none
      none).2.2.2 rfl⟩

/-- C10: `is_tensor` is a total function (it never raises) that returns
true exactly when its argument is an instance of `tf.Tensor` or of
`tf.SparseTensor`. -/
theorem is_tensor_iff_isinstance (obj : PyObj) :
    is_tensor obj = true
      ↔ (isinstanceTensor obj = true ∨ isinstanceSparseTensor obj = true) := by
  simp [is_tensor, Bool.or_eq_true]

end ModelAnalysis
